import Mathlib

/-!
Shallow embedding of the tax rule evaluation engine from
`config/tax_rules.py` (class `TaxRulesEngine`) and the obligation
determination from `agents/tax_analyzer.py`
(`TaxAnalyzerAgent._determine_obligations`).

Modelling conventions:
* Python numbers (`int`, `float`, `Decimal`) are modelled by `ℚ`.  The code
  only ever converts numbers through `Decimal(str(x))`, and `str`/`repr` of a
  Python float round-trips its shortest decimal literal, so the decimal
  literals appearing in the source denote the same rationals here.
* Python dictionaries are modelled by association lists in insertion order;
  assignment `d[k] = v` replaces the binding in place when `k` is present and
  appends otherwise, exactly like a Python dict.
* `date.today()` is ambient state of the interpreter; it is threaded as an
  explicit `today` argument to the operations that read it.
* Exceptions are modelled by `Except PyExc`; the methods of `TaxRulesEngine`
  modelled here never write `self.rules`, so they take the store as a plain
  argument and return no updated store (the mutating methods `add_rule`,
  `update_rule`, `import_rules` return the new store).
-/

namespace TaxRules

/-- Python values as they occur in rule `value` fields, rule `conditions` and
transaction records: numbers (`int` / `float` / `Decimal`), strings, booleans
and `None`.  Python `bool` is a subclass of `int`, so equality tests and
`isinstance(x, (int, float, Decimal))` treat booleans numerically; `numView`
below reflects that. -/
inductive Value where
  | num (q : ℚ)
  | str (s : String)
  | bool (b : Bool)
  | null
  deriving DecidableEq, Repr

/-- The numeric view Python gives a value: a `bool` is an `int` with value
1 or 0; strings and `None` are not numeric. -/
def Value.numView : Value → Option ℚ
  | .num q => some q
  | .bool b => some (if b then 1 else 0)
  | _ => none

/-- `isinstance(x, (int, float, Decimal))` (booleans pass, being ints). -/
def Value.isNumeric (v : Value) : Bool := v.numView.isSome

/-- `float(x)` on a value already known numeric (junk value 0 otherwise;
every use below is guarded by `isNumeric`). -/
def Value.toFloat (v : Value) : ℚ := v.numView.getD 0

/-- Python `==` between the values modelled here: numeric values (including
booleans) compare by numeric value, strings by content, `None` only to
itself, and values of unrelated kinds are unequal. -/
def pyEq (a b : Value) : Bool :=
  match a.numView, b.numView with
  | some x, some y => decide (x = y)
  | _, _ =>
    match a, b with
    | .str s, .str t => decide (s = t)
    | .null, .null => true
    | _, _ => false

/-- Python exceptions the engine can raise, together with the typed
`RuleNotFound` error kind named by the specification (the code never
constructs a `RuleNotFound`; it is included so that statements about it can
be made). -/
inductive PyExc where
  | ruleNotFound
  | attributeError
  | valueError
  | invalidOperation
  deriving DecidableEq, Repr

/-- `datetime.date`: a calendar date, compared lexicographically. -/
structure PyDate where
  year : ℕ
  month : ℕ
  day : ℕ
  deriving DecidableEq, Repr

/-- Python `<` on dates (lexicographic on year, month, day). -/
def PyDate.ltB (a b : PyDate) : Bool :=
  decide (a.year < b.year) ||
    (decide (a.year = b.year) &&
      (decide (a.month < b.month) ||
        (decide (a.month = b.month) && decide (a.day < b.day))))

/-- Python `<=` on dates. -/
def PyDate.leB (a b : PyDate) : Bool := decide (a = b) || PyDate.ltB a b

/-- Parse the digits of a decimal literal: `float(s)` / `Decimal(s)` on the
plain (optionally signed) decimal literals the engine works with — an
optional sign, then digits with at most one point and at least one digit.
(The exotic forms Python also accepts — exponents, `inf`, `nan`, embedded
underscores, surrounding whitespace — do not occur in this code base.) -/
def parseUnsignedDec (s : String) : Option ℚ :=
  match s.splitOn "." with
  | [intPart] => (intPart.toNat?).map (fun n => (n : ℚ))
  | [intPart, fracPart] =>
    if intPart.isEmpty && fracPart.isEmpty then none
    else
      match (if intPart.isEmpty then some 0 else intPart.toNat?),
            (if fracPart.isEmpty then some 0 else fracPart.toNat?) with
      | some i, some f => some ((i : ℚ) + (f : ℚ) / (10 : ℚ) ^ fracPart.length)
      | _, _ => none
  | _ => none

/-- `float(s)` of a decimal string literal, `none` when a `ValueError` would
be raised. -/
def parsePyFloat (s : String) : Option ℚ :=
  if s.startsWith "-" then (parseUnsignedDec (s.drop 1)).map (fun q => -q)
  else if s.startsWith "+" then parseUnsignedDec (s.drop 1)
  else parseUnsignedDec s

/-- `Decimal(str(v))`: a number embeds exactly (`str` round-trips it), a
numeric string parses, and `bool` / `None` (whose `str` is `"True"`,
`"False"`, `"None"`) raise `InvalidOperation`, modelled as `none`. -/
def Value.toDec : Value → Option ℚ
  | .num q => some q
  | .str s => parsePyFloat s
  | _ => none

/-- Dataclass `TaxRule` of `config/tax_rules.py`. -/
structure TaxRule where
  name : String
  description : String
  jurisdiction : String
  category : String
  value : Value
  conditions : Option (List (String × Value)) := none
  effective_date : Option PyDate := none
  expiry_date : Option PyDate := none
  is_active : Bool := true
  deriving DecidableEq, Repr

/-- The engine state `self.rules: Dict[str, TaxRule]` in insertion order. -/
abbrev RuleStore := List (String × TaxRule)

/-- Python dict assignment `d[k] = v`: replace the binding in place when the
key is present, append otherwise. -/
def dictSet (store : RuleStore) (k : String) (v : TaxRule) : RuleStore :=
  if store.any (fun p => p.1 = k) then
    store.map (fun p => if p.1 = k then (k, v) else p)
  else store ++ [(k, v)]

/-- Python dict lookup `d.get(k)` (first binding; a real dict has at most
one). -/
def dictGet (store : RuleStore) (k : String) : Option TaxRule :=
  (store.find? (fun p => p.1 = k)).map Prod.snd

/-- `TaxRulesEngine.add_rule`: `self.rules[rule.name] = rule`. -/
def add_rule (store : RuleStore) (rule : TaxRule) : RuleStore :=
  dictSet store rule.name rule

/-- `TaxRulesEngine.get_rule`: `self.rules.get(name)`. -/
def get_rule (store : RuleStore) (name : String) : Option TaxRule :=
  dictGet store name

/-- The filter applied by `get_active_rules` to a single rule: active,
jurisdiction matches (exact or `'both'`) when a jurisdiction is requested,
category matches when requested, and today is within the effective/expiry
window (absent bound means unbounded). -/
def ruleKept (today : PyDate) (jurisdiction category : Option String)
    (r : TaxRule) : Bool :=
  r.is_active &&
  (match jurisdiction with
   | some j => decide (r.jurisdiction = j) || decide (r.jurisdiction = "both")
   | none => true) &&
  (match category with
   | some c => decide (r.category = c)
   | none => true) &&
  (match r.effective_date with
   | some d => !(PyDate.ltB today d)
   | none => true) &&
  (match r.expiry_date with
   | some d => !(PyDate.ltB d today)
   | none => true)

/-- `TaxRulesEngine.get_active_rules`: iterate `self.rules.values()` keeping
the rules the filter accepts.  (`date.today()` is the `today` argument;
omitting an optional argument is `none`.) -/
def get_active_rules (store : RuleStore) (today : PyDate)
    (jurisdiction category : Option String) : List TaxRule :=
  (store.map Prod.snd).filter (ruleKept today jurisdiction category)

/-- Result dataclass `TaxCalculation`.  `rate_applied` holds the raw rule
value (a Python float), `deductions`/`credits` are always `[]` in the
sales-tax calculators. -/
structure TaxCalculation where
  base_amount : ℚ
  tax_amount : ℚ
  rate_applied : Value
  deductions : List (List (String × Value))
  credits : List (List (String × Value))
  net_amount : ℚ
  jurisdiction : String
  deriving DecidableEq, Repr

/-- `TaxRulesEngine.calculate_gst`.  When the rule `"TPS_Rate"` is absent,
`self.get_rule("TPS_Rate").value` evaluates `.value` on `None` and raises
`AttributeError`; a non-numeric rule value makes `Decimal(str(gst_rate))`
raise `InvalidOperation`. -/
def calculate_gst (store : RuleStore) (amount : ℚ) (is_zero_rated : Bool) :
    Except PyExc TaxCalculation :=
  if is_zero_rated then
    .ok { base_amount := amount, tax_amount := 0, rate_applied := .num 0,
          deductions := [], credits := [], net_amount := amount,
          jurisdiction := "CA" }
  else
    match get_rule store "TPS_Rate" with
    | none => .error .attributeError
    | some rule =>
      match rule.value.toDec with
      | none => .error .invalidOperation
      | some rate =>
        .ok { base_amount := amount, tax_amount := amount * rate,
              rate_applied := rule.value, deductions := [], credits := [],
              net_amount := amount + amount * rate, jurisdiction := "CA" }

/-- `TaxRulesEngine.calculate_qst` (same shape with rule `"TVQ_Rate"` and
jurisdiction `"QC"`). -/
def calculate_qst (store : RuleStore) (amount : ℚ) (is_zero_rated : Bool) :
    Except PyExc TaxCalculation :=
  if is_zero_rated then
    .ok { base_amount := amount, tax_amount := 0, rate_applied := .num 0,
          deductions := [], credits := [], net_amount := amount,
          jurisdiction := "QC" }
  else
    match get_rule store "TVQ_Rate" with
    | none => .error .attributeError
    | some rule =>
      match rule.value.toDec with
      | none => .error .invalidOperation
      | some rate =>
        .ok { base_amount := amount, tax_amount := amount * rate,
              rate_applied := rule.value, deductions := [], credits := [],
              net_amount := amount + amount * rate, jurisdiction := "QC" }

/-- The dictionary returned by `calculate_combined_taxes`. -/
structure CombinedTaxes where
  gst : TaxCalculation
  qst : TaxCalculation
  total_tax : ℚ
  total_amount : ℚ
  deriving DecidableEq, Repr

/-- `TaxRulesEngine.calculate_combined_taxes`: the two jurisdiction
calculations on the same base amount, plus their summed tax and total. -/
def calculate_combined_taxes (store : RuleStore) (amount : ℚ)
    (is_zero_rated : Bool) : Except PyExc CombinedTaxes :=
  match calculate_gst store amount is_zero_rated with
  | .error e => .error e
  | .ok gst_calc =>
    match calculate_qst store amount is_zero_rated with
    | .error e => .error e
    | .ok qst_calc =>
      .ok { gst := gst_calc, qst := qst_calc,
            total_tax := gst_calc.tax_amount + qst_calc.tax_amount,
            total_amount :=
              amount + gst_calc.tax_amount + qst_calc.tax_amount }

/-- A transaction / expense record: a Python dict of field → value. -/
abbrev Tx := List (String × Value)

/-- Lookup in a record dict (`key in data` / `data[key]`). -/
def lookupV (d : Tx) (k : String) : Option Value :=
  (d.find? (fun p => p.1 = k)).map Prod.snd

/-- One key/constraint pair of `TaxRulesEngine._check_conditions`: a missing
key is unsatisfied; a string constraint beginning with `">"` (resp. `"<"`)
parses its remainder with `float` (raising `ValueError` on failure) and is
satisfied when the data value is numeric and strictly greater (resp. less);
any other constraint requires Python equality. -/
def checkPair (data : Tx) (key : String) (c : Value) : Except PyExc Bool :=
  match lookupV data key with
  | none => .ok false
  | some dv =>
    match c with
    | .str s =>
      if s.startsWith ">" then
        match parsePyFloat (s.drop 1) with
        | none => .error .valueError
        | some threshold =>
          .ok (dv.isNumeric && decide (threshold < dv.toFloat))
      else if s.startsWith "<" then
        match parsePyFloat (s.drop 1) with
        | none => .error .valueError
        | some threshold =>
          .ok (dv.isNumeric && decide (dv.toFloat < threshold))
      else .ok (pyEq dv c)
    | _ => .ok (pyEq dv c)

/-- The loop of `_check_conditions`: pairs in insertion order, stopping at
the first unsatisfied pair (so a later malformed comparator is not
reached). -/
def checkPairs (data : Tx) : List (String × Value) → Except PyExc Bool
  | [] => .ok true
  | (k, c) :: rest =>
    match checkPair data k c with
    | .error e => .error e
    | .ok b => if b then checkPairs data rest else .ok false

/-- `TaxRulesEngine._check_conditions`: `if not conditions: return True`
(absent or empty conditions are vacuously satisfied), then every pair must
hold. -/
def check_conditions (data : Tx) : Option (List (String × Value)) →
    Except PyExc Bool
  | none => .ok true
  | some conds => checkPairs data conds

/-- One applied-rule record emitted by `apply_deductions` /
`apply_credits`. -/
structure AppliedRecord where
  rule : String
  description : String
  amount : ℚ
  rate : Value
  deriving DecidableEq, Repr

/-- The record built for a matching rule: base amount times
`Decimal(str(rule.value))`. -/
def mkApplied (r : TaxRule) (amt : ℚ) : AppliedRecord :=
  { rule := r.name, description := r.description, amount := amt,
    rate := r.value }

/-- Inner loop shared by `apply_deductions` and `apply_credits`: for one
line item, every rule whose conditions hold emits a record of amount
`base * Decimal(str(rule.value))`. -/
def applyRulesTo (data : Tx) (base : ℚ) :
    List TaxRule → Except PyExc (List AppliedRecord)
  | [] => .ok []
  | r :: rs =>
    match check_conditions data r.conditions with
    | .error e => .error e
    | .ok b =>
      if b then
        match r.value.toDec with
        | none => .error .invalidOperation
        | some v =>
          match applyRulesTo data base rs with
          | .error e => .error e
          | .ok rest => .ok (mkApplied r (base * v) :: rest)
      else applyRulesTo data base rs

/-- Outer loop of `apply_deductions` / `apply_credits`: line items in order,
records appended to one shared list. -/
def applyToItems (rules : List TaxRule) (base : ℚ) :
    List Tx → Except PyExc (List AppliedRecord)
  | [] => .ok []
  | e :: es =>
    match applyRulesTo e base rules with
    | .error err => .error err
    | .ok recs =>
      match applyToItems rules base es with
      | .error err => .error err
      | .ok rest => .ok (recs ++ rest)

/-- `TaxRulesEngine.apply_deductions`: active `deduction` rules applied to
each expense, each deduction amount being `amount * Decimal(str(rule.value))`
with `amount` the base amount passed in. -/
def apply_deductions (store : RuleStore) (today : PyDate) (amount : ℚ)
    (expenses : List Tx) : Except PyExc (List AppliedRecord) :=
  applyToItems (get_active_rules store today none (some "deduction"))
    amount expenses

/-- `TaxRulesEngine.apply_credits`: active `credit` rules applied to each
eligible expense, each credit amount being
`tax_amount * Decimal(str(rule.value))`. -/
def apply_credits (store : RuleStore) (today : PyDate) (tax_amount : ℚ)
    (eligible_expenses : List Tx) : Except PyExc (List AppliedRecord) :=
  applyToItems (get_active_rules store today none (some "credit"))
    tax_amount eligible_expenses

/-- The six running totals of `get_tax_summary`. -/
structure SummaryAcc where
  revenue : ℚ
  expenses : ℚ
  gstC : ℚ
  qstC : ℚ
  gstP : ℚ
  qstP : ℚ
  deriving DecidableEq, Repr

/-- One iteration of the `get_tax_summary` loop:
`amount = Decimal(str(transaction.get('amount', 0)))`,
`transaction_type = transaction.get('type', 'revenue')`; a revenue
transaction adds its combined taxes to the collected totals, an expense
to the paid totals, any other type contributes nothing. -/
def summaryStep (store : RuleStore) (acc : SummaryAcc) (t : Tx) :
    Except PyExc SummaryAcc :=
  match ((lookupV t "amount").getD (.num 0)).toDec with
  | none => .error .invalidOperation
  | some amount =>
    if pyEq ((lookupV t "type").getD (.str "revenue")) (.str "revenue") then
      match calculate_combined_taxes store amount false with
      | .error e => .error e
      | .ok taxes =>
        .ok { acc with
              revenue := acc.revenue + amount,
              gstC := acc.gstC + taxes.gst.tax_amount,
              qstC := acc.qstC + taxes.qst.tax_amount }
    else if pyEq ((lookupV t "type").getD (.str "revenue"))
        (.str "expense") then
      match calculate_combined_taxes store amount false with
      | .error e => .error e
      | .ok taxes =>
        .ok { acc with
              expenses := acc.expenses + amount,
              gstP := acc.gstP + taxes.gst.tax_amount,
              qstP := acc.qstP + taxes.qst.tax_amount }
    else .ok acc

/-- The `get_tax_summary` loop over the transaction list. -/
def summaryFold (store : RuleStore) (acc : SummaryAcc) :
    List Tx → Except PyExc SummaryAcc
  | [] => .ok acc
  | t :: ts =>
    match summaryStep store acc t with
    | .error e => .error e
    | .ok acc2 => summaryFold store acc2 ts

/-- The dictionary returned by `get_tax_summary`. -/
structure TaxSummary where
  total_revenue : ℚ
  total_expenses : ℚ
  net_income : ℚ
  gst_collected : ℚ
  gst_paid : ℚ
  gst_remittance : ℚ
  qst_collected : ℚ
  qst_paid : ℚ
  qst_remittance : ℚ
  total_tax_remittance : ℚ
  deriving DecidableEq, Repr

/-- `TaxRulesEngine.get_tax_summary`. -/
def get_tax_summary (store : RuleStore) (transactions : List Tx) :
    Except PyExc TaxSummary :=
  match summaryFold store ⟨0, 0, 0, 0, 0, 0⟩ transactions with
  | .error e => .error e
  | .ok a =>
    .ok { total_revenue := a.revenue, total_expenses := a.expenses,
          net_income := a.revenue - a.expenses,
          gst_collected := a.gstC, gst_paid := a.gstP,
          gst_remittance := a.gstC - a.gstP,
          qst_collected := a.qstC, qst_paid := a.qstP,
          qst_remittance := a.qstC - a.qstP,
          total_tax_remittance := (a.gstC - a.gstP) + (a.qstC - a.qstP) }

/-- An obligation record built by
`TaxAnalyzerAgent._determine_obligations`. -/
structure Obligation where
  type : String
  description : String
  amount : ℚ
  deadline : Option PyDate
  jurisdiction : String
  priority : String
  deriving DecidableEq, Repr

/-- `TaxAnalyzerAgent._determine_obligations`: a non-zero GST (resp. QST)
remittance and a positive income-tax total each contribute one obligation
record.  The deadlines are whatever the fiscal-calendar collaborator
returns from `_get_next_gst_deadline` etc., threaded here as arguments. -/
def determine_obligations (gstRemittance qstRemittance incomeTaxTotal : ℚ)
    (gstDeadline qstDeadline incomeDeadline : Option PyDate) :
    List Obligation :=
  (if gstRemittance ≠ 0 then
    [{ type := "gst_remittance", description := "Remise TPS",
       amount := gstRemittance, deadline := gstDeadline,
       jurisdiction := "CA", priority := "high" }] else []) ++
  (if qstRemittance ≠ 0 then
    [{ type := "qst_remittance", description := "Remise TVQ",
       amount := qstRemittance, deadline := qstDeadline,
       jurisdiction := "QC", priority := "high" }] else []) ++
  (if incomeTaxTotal > 0 then
    [{ type := "income_tax", description := "Impôt sur le revenu",
       amount := incomeTaxTotal, deadline := incomeDeadline,
       jurisdiction := "both", priority := "high" }] else [])

/-- `TaxRulesEngine.update_rule`: when the name is bound, overwrite the
rule's `value` and — only when a date is passed (a `date` is always
truthy) — its `effective_date`; otherwise do nothing. -/
def update_rule (store : RuleStore) (rule_name : String) (new_value : Value)
    (effective_date : Option PyDate) : RuleStore :=
  store.map (fun p =>
    if p.1 = rule_name then
      (p.1, { p.2 with
              value := new_value,
              effective_date :=
                match effective_date with
                | some d => some d
                | none => p.2.effective_date })
    else p)

/-- The JSON object written for one rule by `export_rules`.  The two date
fields are serialized as ISO-8601 strings or `null`; since
`date.fromisoformat(d.isoformat()) == d`, the string form is represented
here by the date itself (`none` for `null`). -/
structure RuleJson where
  name : String
  description : String
  jurisdiction : String
  category : String
  value : Value
  conditions : Option (List (String × Value))
  effective_date : Option PyDate
  expiry_date : Option PyDate
  is_active : Bool
  deriving DecidableEq, Repr

/-- `TaxRulesEngine.export_rules`: the JSON object keyed by rule name, in
store order (the file write itself is outside the model). -/
def export_rules (store : RuleStore) : List (String × RuleJson) :=
  store.map (fun p =>
    (p.1, { name := p.2.name, description := p.2.description,
            jurisdiction := p.2.jurisdiction, category := p.2.category,
            value := p.2.value, conditions := p.2.conditions,
            effective_date := p.2.effective_date,
            expiry_date := p.2.expiry_date, is_active := p.2.is_active }))

/-- The `TaxRule` rebuilt from one imported JSON object. -/
def ruleOfJson (d : RuleJson) : TaxRule :=
  { name := d.name, description := d.description,
    jurisdiction := d.jurisdiction, category := d.category,
    value := d.value, conditions := d.conditions,
    effective_date := d.effective_date, expiry_date := d.expiry_date,
    is_active := d.is_active }

/-- `TaxRulesEngine.import_rules`: each entry of the file is rebuilt and
assigned into `self.rules` under its file key (existing rules not named in
the file are kept). -/
def import_rules (data : List (String × RuleJson)) (store : RuleStore) :
    RuleStore :=
  data.foldl (fun st p => dictSet st p.1 (ruleOfJson p.2)) store

/-- Default rule `TPS_Rate` (5 %). -/
def tpsRateRule : TaxRule :=
  { name := "TPS_Rate",
    description := "Taux de TPS (Taxe sur les Produits et Services)",
    jurisdiction := "CA", category := "rate", value := .num 0.05,
    effective_date := some ⟨2008, 1, 1⟩ }

/-- Default rule `TVQ_Rate` (9.975 %). -/
def tvqRateRule : TaxRule :=
  { name := "TVQ_Rate",
    description := "Taux de TVQ (Taxe de Vente du Qu\xe9bec)",
    jurisdiction := "QC", category := "rate", value := .num 0.09975,
    effective_date := some ⟨2013, 1, 1⟩ }

/-- Default rule `Small_Business_Threshold`. -/
def smallBusinessRule : TaxRule :=
  { name := "Small_Business_Threshold",
    description := "Seuil pour petite entreprise",
    jurisdiction := "both", category := "threshold", value := .num 30000.0,
    effective_date := some ⟨2020, 1, 1⟩ }

/-- Default rule `QST_Registration_Threshold`. -/
def qstRegistrationRule : TaxRule :=
  { name := "QST_Registration_Threshold",
    description := "Seuil d\x27inscription TVQ",
    jurisdiction := "QC", category := "threshold", value := .num 30000.0,
    effective_date := some ⟨2020, 1, 1⟩ }

/-- Default rule `Business_Expense_Deduction`. -/
def businessExpenseRule : TaxRule :=
  { name := "Business_Expense_Deduction",
    description := "D\xe9duction pour d\xe9penses d\x27entreprise",
    jurisdiction := "both", category := "deduction", value := .num 1.0,
    conditions := some [("expense_type", .str "business"),
                        ("documented", .bool true)] }

/-- Default rule `Home_Office_Deduction`. -/
def homeOfficeRule : TaxRule :=
  { name := "Home_Office_Deduction",
    description := "D\xe9duction bureau \xe0 domicile",
    jurisdiction := "both", category := "deduction", value := .num 0.25,
    conditions := some [("home_office_percentage", .str ">0"),
                        ("exclusive_use", .bool true)] }

/-- Default rule `SRED_Credit`. -/
def sredCreditRule : TaxRule :=
  { name := "SRED_Credit",
    description := "Cr\xe9dit d\x27imp\xf4t pour R&D",
    jurisdiction := "both", category := "credit", value := .num 0.35,
    conditions := some [("sred_eligible", .bool true),
                        ("documented", .bool true)] }

/-- Default rule `Digital_Media_Credit_QC`. -/
def digitalMediaRule : TaxRule :=
  { name := "Digital_Media_Credit_QC",
    description := "Cr\xe9dit d\x27imp\xf4t pour m\xe9dias num\xe9riques QC",
    jurisdiction := "QC", category := "credit", value := .num 0.24,
    conditions := some [("digital_media_eligible", .bool true),
                        ("qc_resident", .bool true)] }

/-- Default rule `Tech_Startup_Deduction`. -/
def techStartupRule : TaxRule :=
  { name := "Tech_Startup_Deduction",
    description := "D\xe9duction sp\xe9ciale pour startup technologique",
    jurisdiction := "both", category := "deduction", value := .num 0.15,
    conditions := some [("company_type", .str "tech_startup"),
                        ("revenue", .str "<100000")] }

/-- `TaxRulesEngine.load_default_rules` applied to the empty store: the nine
default rules added in source order. -/
def defaultRules : RuleStore :=
  [tpsRateRule, tvqRateRule, smallBusinessRule, qstRegistrationRule,
   businessExpenseRule, homeOfficeRule, sredCreditRule, digitalMediaRule,
   techStartupRule].foldl add_rule []

instance instDecEqExcept {ε α : Type _} [DecidableEq ε] [DecidableEq α] :
    DecidableEq (Except ε α) := fun x y =>
  match x, y with
  | .error a, .error b =>
    if h : a = b then isTrue (congrArg Except.error h)
    else isFalse (fun he => h (Except.error.inj he))
  | .ok a, .ok b =>
    if h : a = b then isTrue (congrArg Except.ok h)
    else isFalse (fun he => h (Except.ok.inj he))
  | .error _, .ok _ => isFalse (fun he => Except.noConfusion he)
  | .ok _, .error _ => isFalse (fun he => Except.noConfusion he)

/-- Spec-side reading (claim C4) of one key/constraint pair: a missing key
is unsatisfied; a constraint string beginning with `">"` (resp. `"<"`)
requires the data value to be numeric and strictly greater (resp. less)
than the number parsed from the remainder, and is unsatisfied when the data
value is not numeric; any other constraint requires exact equality.  (The
unparseable-remainder case is unreachable when the matcher returns without
an exception.) -/
def specPairSatisfied (data : Tx) (key : String) (c : Value) : Bool :=
  match lookupV data key with
  | none => false
  | some dv =>
    match c with
    | .str s =>
      if s.startsWith ">" then
        match parsePyFloat (s.drop 1) with
        | none => false
        | some threshold => dv.isNumeric && decide (threshold < dv.toFloat)
      else if s.startsWith "<" then
        match parsePyFloat (s.drop 1) with
        | none => false
        | some threshold => dv.isNumeric && decide (dv.toFloat < threshold)
      else pyEq dv c
    | _ => pyEq dv c

/-- The condition pairs a `conditions` field denotes (absent = none). -/
def condPairs : Option (List (String × Value)) → List (String × Value)
  | none => []
  | some l => l

/-- Spec-side (claim C8): is a transaction counted as revenue?  The `type`
field defaults to `'revenue'` when absent. -/
def isRevenueTx (t : Tx) : Bool :=
  pyEq ((lookupV t "type").getD (.str "revenue")) (.str "revenue")

/-- Spec-side (claim C8): is a transaction counted as an expense? -/
def isExpenseTx (t : Tx) : Bool :=
  !isRevenueTx t &&
    pyEq ((lookupV t "type").getD (.str "revenue")) (.str "expense")

/-- Spec-side (claim C8): the amount the summary reads from a transaction
(junk 0 when it does not parse; the summary aborts there anyway). -/
def txAmt (t : Tx) : ℚ :=
  (((lookupV t "amount").getD (.num 0)).toDec).getD 0

/-- Spec-side (claim C8): the combined-taxes result a transaction
contributes (none when the amount does not parse or a rate rule is
missing). -/
def txCombined (store : RuleStore) (t : Tx) : Option CombinedTaxes :=
  match ((lookupV t "amount").getD (.num 0)).toDec with
  | none => none
  | some a => (calculate_combined_taxes store a false).toOption

/-- Spec-side (claim C8): the GST portion of a transaction's combined
tax. -/
def txGstTax (store : RuleStore) (t : Tx) : ℚ :=
  ((txCombined store t).map (fun c => c.gst.tax_amount)).getD 0

/-- Spec-side (claim C8): the QST portion of a transaction's combined
tax. -/
def txQstTax (store : RuleStore) (t : Tx) : ℚ :=
  ((txCombined store t).map (fun c => c.qst.tax_amount)).getD 0

/-- The deduction rule of the concrete scenario in claim C5: value `0.25`,
single condition `home_office_percentage > 0`. -/
def homeOfficeScenarioRule : TaxRule :=
  { name := "Home_Office_Deduction",
    description := "D\xe9duction bureau \xe0 domicile",
    jurisdiction := "both", category := "deduction", value := .num 0.25,
    conditions := some [("home_office_percentage", .str ">0")] }

/-- A store holding only the scenario rule of claim C5. -/
def homeOfficeScenarioStore : RuleStore := add_rule [] homeOfficeScenarioRule

/-- The expense record of the concrete scenario in claim C5. -/
def homeOfficeExpense : Tx :=
  [("amount", .num 400), ("home_office_percentage", .num 50)]

/-- An arbitrary current date used by concrete scenarios (the scenario
rules carry no date bounds, so any date works). -/
def someToday : PyDate := ⟨2024, 6, 1⟩

/-- The combined calculation of 1000.00 under the default rules (concrete
scenario of spec §8: GST 50.00, QST 99.75, total tax 149.75, total
1149.75). -/
def combined1000 : CombinedTaxes :=
  { gst := { base_amount := 1000, tax_amount := 50,
             rate_applied := .num 0.05, deductions := [], credits := [],
             net_amount := 1050, jurisdiction := "CA" },
    qst := { base_amount := 1000, tax_amount := 99.75,
             rate_applied := .num 0.09975, deductions := [], credits := [],
             net_amount := 1099.75, jurisdiction := "QC" },
    total_tax := 149.75, total_amount := 1149.75 }

/-- A small concrete transaction batch: one revenue of 1000, one expense
of 200. -/
def demoTxs : List Tx :=
  [[("amount", .num 1000)], [("amount", .num 200), ("type", .str "expense")]]

/-- The summary the engine produces for `demoTxs` under the default
rules. -/
def demoSummary : TaxSummary :=
  { total_revenue := 1000, total_expenses := 200, net_income := 800,
    gst_collected := 50, gst_paid := 10, gst_remittance := 40,
    qst_collected := 99.75, qst_paid := 19.95, qst_remittance := 79.8,
    total_tax_remittance := 119.8 }

/-- A transaction of a type that is neither revenue nor expense. -/
def transferTx : Tx := [("amount", .num 999), ("type", .str "transfer")]

/-- A transaction with no `type` field. -/
def noTypeTx : Tx := [("amount", .num 1000)]

/-- A transaction with no `amount` field. -/
def noAmountTx : Tx := [("type", .str "revenue")]

/-- Unfolding `dictGet` over a cons cell. -/
theorem dictGet_cons (p : String × TaxRule) (rest : RuleStore) (k : String) :
    dictGet (p :: rest) k = if p.1 = k then some p.2 else dictGet rest k := by
  by_cases h : p.1 = k
  · simp [dictGet, List.find?_cons_of_pos, h]
  · simp [dictGet, List.find?_cons_of_neg, h]

/-- Helper: the base amount of a successful GST calculation is the input
amount. -/
theorem calculate_gst_base (store : RuleStore) (amount : ℚ) (izr : Bool)
    (g : TaxCalculation) (h : calculate_gst store amount izr = .ok g) :
    g.base_amount = amount := by
  unfold calculate_gst at h
  split at h
  · cases h; rfl
  · split at h
    · cases h
    · split at h
      · cases h
      · cases h; rfl

/-- Helper: the base amount of a successful QST calculation is the input
amount. -/
theorem calculate_qst_base (store : RuleStore) (amount : ℚ) (izr : Bool)
    (q : TaxCalculation) (h : calculate_qst store amount izr = .ok q) :
    q.base_amount = amount := by
  unfold calculate_qst at h
  split at h
  · cases h; rfl
  · split at h
    · cases h
    · split at h
      · cases h
      · cases h; rfl

/-- C1: whenever `calculate_combined_taxes` returns, its `total_tax` is the
sum of the GST and QST tax amounts, its `total_amount` is the base amount
plus that total tax, and the two component calculations are exactly the
independent GST and QST calculations on the same base amount (no
tax-on-tax cascading). -/
theorem combined_taxes_additive (store : RuleStore) (amount : ℚ)
    (is_zero_rated : Bool) (c : CombinedTaxes)
    (h : calculate_combined_taxes store amount is_zero_rated = .ok c) :
    c.total_tax = c.gst.tax_amount + c.qst.tax_amount ∧
    c.total_amount = amount + c.total_tax ∧
    calculate_gst store amount is_zero_rated = .ok c.gst ∧
    calculate_qst store amount is_zero_rated = .ok c.qst ∧
    c.gst.base_amount = amount ∧ c.qst.base_amount = amount := by
  unfold calculate_combined_taxes at h
  cases hg : calculate_gst store amount is_zero_rated with
  | error e => rw [hg] at h; cases h
  | ok g =>
    rw [hg] at h
    cases hq : calculate_qst store amount is_zero_rated with
    | error e => rw [hq] at h; cases h
    | ok q =>
      rw [hq] at h
      injection h with h2
      subst h2
      exact ⟨rfl, add_assoc amount g.tax_amount q.tax_amount, rfl, rfl,
             calculate_gst_base store amount is_zero_rated g hg,
             calculate_qst_base store amount is_zero_rated q hq⟩

/-- C1 witness: the combined calculation of 1000.00 under the default rules
satisfies the additivity properties (GST 50, QST 99.75, total 149.75). -/
theorem combined_taxes_additive_witness :
    calculate_combined_taxes defaultRules 1000 false = .ok combined1000 ∧
    (combined1000.total_tax =
        combined1000.gst.tax_amount + combined1000.qst.tax_amount ∧
      combined1000.total_amount = 1000 + combined1000.total_tax ∧
      calculate_gst defaultRules 1000 false = .ok combined1000.gst ∧
      calculate_qst defaultRules 1000 false = .ok combined1000.qst ∧
      combined1000.gst.base_amount = 1000 ∧
      combined1000.qst.base_amount = 1000) :=
  ⟨by with_unfolding_all rfl,
   combined_taxes_additive defaultRules 1000 false combined1000
     (by with_unfolding_all rfl)⟩

/-- C2: with `is_zero_rated = true` both sales-tax calculators return a
calculation with zero tax, zero rate applied and net amount equal to the
input amount, whatever the rule store holds. -/
theorem zero_rated_short_circuit (store : RuleStore) (amount : ℚ) :
    calculate_gst store amount true =
      .ok { base_amount := amount, tax_amount := 0, rate_applied := .num 0,
            deductions := [], credits := [], net_amount := amount,
            jurisdiction := "CA" } ∧
    calculate_qst store amount true =
      .ok { base_amount := amount, tax_amount := 0, rate_applied := .num 0,
            deductions := [], credits := [], net_amount := amount,
            jurisdiction := "QC" } :=
  ⟨rfl, rfl⟩

/-- C6 counterexample: with the rate rule absent, the calculation fails with
the generic `AttributeError` raised by evaluating `.value` on `None` — not
with a typed `RuleNotFound` error (no such type exists in the code). -/
theorem missing_rule_not_typed_counterexample :
    calculate_gst [] 100 false = .error .attributeError ∧
    calculate_gst [] 100 false ≠ .error .ruleNotFound := by
  exact ⟨rfl, by decide⟩

/-- C6 amended: when the named rate rule is absent from the store, the
non-zero-rated sales-tax calculation fails with the generic
`AttributeError` from attribute access on `None`, surfaced to the caller.
(The calculators never write the store — in the source they never assign
`self.rules` — so no mutation or partial result occurs.) -/
theorem missing_rule_failure (store : RuleStore) (amount : ℚ)
    (hg : get_rule store "TPS_Rate" = none)
    (hq : get_rule store "TVQ_Rate" = none) :
    calculate_gst store amount false = .error .attributeError ∧
    calculate_qst store amount false = .error .attributeError := by
  constructor
  · unfold calculate_gst; rw [hg]; rfl
  · unfold calculate_qst; rw [hq]; rfl

/-- C6 amended witness: the empty store has no rate rules and both
calculators fail there with `AttributeError`. -/
theorem missing_rule_failure_witness :
    get_rule [] "TPS_Rate" = none ∧ get_rule [] "TVQ_Rate" = none ∧
    calculate_gst [] 100 false = .error .attributeError ∧
    calculate_qst [] 100 false = .error .attributeError :=
  ⟨rfl, rfl, (missing_rule_failure [] 100 rfl rfl).1,
   (missing_rule_failure [] 100 rfl rfl).2⟩

/-- Helper: the rule produced by `update_rule` for a matched entry. -/
theorem update_rule_absent (store : RuleStore) (nm : String) (v : Value)
    (ed : Option PyDate) (h : dictGet store nm = none) :
    update_rule store nm v ed = store := by
  induction store with
  | nil => rfl
  | cons p rest ih =>
    rw [dictGet_cons] at h
    by_cases hp : p.1 = nm
    · simp [hp] at h
    · rw [if_neg hp] at h
      unfold update_rule at ih ⊢
      rw [List.map_cons, if_neg hp]
      exact congrArg (List.cons p) (ih h)

/-- Helper: `update_rule` leaves every other name's binding unchanged. -/
theorem update_rule_frame (store : RuleStore) (nm : String) (v : Value)
    (ed : Option PyDate) (k : String) (hk : k ≠ nm) :
    dictGet (update_rule store nm v ed) k = dictGet store k := by
  induction store with
  | nil => rfl
  | cons p rest ih =>
    unfold update_rule at ih ⊢
    rw [List.map_cons]
    by_cases hp : p.1 = nm
    · rw [if_pos hp, dictGet_cons, dictGet_cons]
      have hne : ¬(p.1 = k) := fun he => hk (he.symm.trans hp)
      rw [if_neg hne, if_neg hne]
      exact ih
    · rw [if_neg hp, dictGet_cons, dictGet_cons]
      by_cases hpk : p.1 = k
      · rw [if_pos hpk, if_pos hpk]
      · rw [if_neg hpk, if_neg hpk]
        exact ih

/-- Helper: `update_rule` on a bound name rewrites exactly the `value`
field, and the `effective_date` field only when a date is supplied. -/
theorem update_rule_found (store : RuleStore) (nm : String) (v : Value)
    (ed : Option PyDate) (r : TaxRule) (h : dictGet store nm = some r) :
    dictGet (update_rule store nm v ed) nm =
      some { r with
             value := v,
             effective_date :=
               match ed with
               | some d => some d
               | none => r.effective_date } := by
  induction store with
  | nil => cases h
  | cons p rest ih =>
    rw [dictGet_cons] at h
    unfold update_rule at ih ⊢
    rw [List.map_cons]
    by_cases hp : p.1 = nm
    · rw [if_pos hp] at h ⊢
      injection h with h2
      subst h2
      rw [dictGet_cons, if_pos hp]
    · rw [if_neg hp] at h ⊢
      rw [dictGet_cons, if_neg hp]
      exact ih h

/-- Helper: lookups through a `map` that only rewrites entries keyed `k`
are unchanged at any other key. -/
theorem dictGet_map_setk (rest : RuleStore) (k : String) (v : TaxRule)
    (k' : String) (h : k' ≠ k) :
    dictGet (rest.map (fun q => if q.1 = k then (k, v) else q)) k' =
      dictGet rest k' := by
  induction rest with
  | nil => rfl
  | cons p l ih =>
    rw [List.map_cons, dictGet_cons, dictGet_cons]
    by_cases hp : p.1 = k
    · rw [if_pos hp]
      rw [if_neg (fun he : (k, v).1 = k' => h he.symm)]
      rw [if_neg (fun he : p.1 = k' => h (he.symm.trans hp))]
      exact ih
    · rw [if_neg hp]
      by_cases hpk : p.1 = k'
      · rw [if_pos hpk, if_pos hpk]
      · rw [if_neg hpk, if_neg hpk]
        exact ih

/-- Helper: `dictSet` binds the written key to the written value. -/
theorem dictGet_dictSet_self (store : RuleStore) (k : String) (v : TaxRule) :
    dictGet (dictSet store k v) k = some v := by
  induction store with
  | nil => simp [dictSet, dictGet_cons]
  | cons p rest ih =>
    by_cases hp : p.1 = k
    · unfold dictSet
      rw [if_pos (by simp [List.any_cons, hp])]
      rw [List.map_cons, if_pos hp, dictGet_cons, if_pos rfl]
    · by_cases ha : rest.any (fun q => q.1 = k)
      · unfold dictSet at ih ⊢
        rw [if_pos (by simp [List.any_cons, ha])]
        rw [List.map_cons, if_neg hp, dictGet_cons, if_neg hp]
        rw [if_pos ha] at ih
        exact ih
      · unfold dictSet at ih ⊢
        rw [if_neg (by simp [List.any_cons, hp, ha])]
        rw [List.cons_append, dictGet_cons, if_neg hp]
        rw [if_neg ha] at ih
        exact ih

/-- Helper: appending a fresh binding does not change other lookups. -/
theorem dictGet_append_single (store : RuleStore) (k : String) (v : TaxRule)
    (k' : String) (h : k' ≠ k) :
    dictGet (store ++ [(k, v)]) k' = dictGet store k' := by
  induction store with
  | nil =>
    rw [List.nil_append, dictGet_cons, if_neg (fun he : (k, v).1 = k' => h he.symm)]
  | cons p rest ih =>
    rw [List.cons_append, dictGet_cons, dictGet_cons]
    by_cases hpk : p.1 = k'
    · rw [if_pos hpk, if_pos hpk]
    · rw [if_neg hpk, if_neg hpk]
      exact ih

/-- Helper: `dictSet` leaves every other key's binding unchanged. -/
theorem dictGet_dictSet_other (store : RuleStore) (k : String) (v : TaxRule)
    (k' : String) (h : k' ≠ k) :
    dictGet (dictSet store k v) k' = dictGet store k' := by
  unfold dictSet
  split
  · exact dictGet_map_setk store k v k' h
  · exact dictGet_append_single store k v k' h

/-- C9: `update_rule` is a silent no-op when the name is unbound; when the
name is bound it rewrites only that rule's `value` (and its
`effective_date` when one is supplied), leaving all other fields and all
other bindings untouched; `add_rule`, in contrast, always succeeds,
binding the rule's name to the rule and leaving other bindings
unchanged. -/
theorem update_rule_asymmetry (store : RuleStore) (nm : String) (v : Value)
    (ed : Option PyDate) :
    (dictGet store nm = none → update_rule store nm v ed = store) ∧
    (∀ k, k ≠ nm →
      dictGet (update_rule store nm v ed) k = dictGet store k) ∧
    (∀ r, dictGet store nm = some r →
      dictGet (update_rule store nm v ed) nm =
        some { r with
               value := v,
               effective_date :=
                 match ed with
                 | some d => some d
                 | none => r.effective_date }) ∧
    (∀ rule : TaxRule, dictGet (add_rule store rule) rule.name = some rule ∧
      ∀ k, k ≠ rule.name →
        dictGet (add_rule store rule) k = dictGet store k) :=
  ⟨update_rule_absent store nm v ed,
   fun k hk => update_rule_frame store nm v ed k hk,
   fun r h => update_rule_found store nm v ed r h,
   fun rule => ⟨dictGet_dictSet_self store rule.name rule,
     fun k hk => dictGet_dictSet_other store rule.name rule k hk⟩⟩

/-- C9 witness: on the default store, updating an unbound name is a no-op,
and updating `TPS_Rate` to 6 % rewrites only its value. -/
theorem update_rule_asymmetry_witness :
    update_rule defaultRules "No_Such_Rule" (.num 1) none = defaultRules ∧
    dictGet (update_rule defaultRules "TPS_Rate" (.num 0.06) none)
        "TPS_Rate" = some { tpsRateRule with value := .num 0.06 } ∧
    dictGet (update_rule defaultRules "TPS_Rate" (.num 0.06) none)
        "TVQ_Rate" = dictGet defaultRules "TVQ_Rate" :=
  ⟨(update_rule_asymmetry defaultRules "No_Such_Rule" (.num 1) none).1
     (by with_unfolding_all rfl),
   (update_rule_asymmetry defaultRules "TPS_Rate" (.num 0.06) none).2.2.1
     tpsRateRule (by with_unfolding_all rfl),
   (update_rule_asymmetry defaultRules "TPS_Rate" (.num 0.06) none).2.1
     "TVQ_Rate" (by decide)⟩

/-- Helper: `¬(a < b)` on dates is `b ≤ a` (the date order is total). -/
theorem ltB_false_iff_leB (a b : PyDate) :
    PyDate.ltB a b = false ↔ PyDate.leB b a = true := by
  obtain ⟨y1, m1, d1⟩ := a
  obtain ⟨y2, m2, d2⟩ := b
  simp [PyDate.ltB, PyDate.leB, PyDate.mk.injEq]
  omega

/-- Helper: membership in the values of an association list. -/
theorem mem_map_snd_iff (store : RuleStore) (r : TaxRule) :
    r ∈ store.map Prod.snd ↔ ∃ n, (n, r) ∈ store := by
  rw [List.mem_map]
  constructor
  · rintro ⟨⟨n, r'⟩, hp, rfl⟩
    exact ⟨n, hp⟩
  · rintro ⟨n, hn⟩
    exact ⟨(n, r), hn, rfl⟩

/-- Helper: the `get_active_rules` filter in propositional form. -/
theorem ruleKept_iff (today : PyDate) (jurisdiction category : Option String)
    (r : TaxRule) :
    ruleKept today jurisdiction category r = true ↔
      (r.is_active = true ∧
       (∀ j, jurisdiction = some j →
         (r.jurisdiction = j ∨ r.jurisdiction = "both")) ∧
       (∀ c, category = some c → r.category = c) ∧
       (∀ d, r.effective_date = some d → PyDate.leB d today = true) ∧
       (∀ d, r.expiry_date = some d → PyDate.leB today d = true)) := by
  obtain ⟨nm, ds, ju, ca, va, co, ed, ex, ia⟩ := r
  cases jurisdiction <;> cases category <;> cases ed <;> cases ex <;>
    simp [ruleKept, Bool.not_eq_true', ltB_false_iff_leB, and_assoc]

/-- C3: a rule is returned by `get_active_rules` exactly when it is in the
store, is active, matches a requested jurisdiction exactly or via `'both'`,
matches a requested category exactly, and the current date lies within its
inclusive `[effective_date, expiry_date]` window, an absent bound being
unbounded on that side. -/
theorem get_active_rules_spec (store : RuleStore) (today : PyDate)
    (jurisdiction category : Option String) (r : TaxRule) :
    r ∈ get_active_rules store today jurisdiction category ↔
      ((∃ n, (n, r) ∈ store) ∧ r.is_active = true ∧
       (∀ j, jurisdiction = some j →
         (r.jurisdiction = j ∨ r.jurisdiction = "both")) ∧
       (∀ c, category = some c → r.category = c) ∧
       (∀ d, r.effective_date = some d → PyDate.leB d today = true) ∧
       (∀ d, r.expiry_date = some d → PyDate.leB today d = true)) := by
  unfold get_active_rules
  rw [List.mem_filter, mem_map_snd_iff, ruleKept_iff]

/-- Helper: on each pair the matcher either raises `ValueError` (malformed
comparator) or returns exactly the spec-side satisfaction value. -/
theorem checkPair_spec_agree (data : Tx) (k : String) (c : Value) :
    checkPair data k c = .error .valueError ∨
    checkPair data k c = .ok (specPairSatisfied data k c) := by
  unfold checkPair specPairSatisfied
  cases lookupV data k with
  | none => exact .inr rfl
  | some dv =>
    cases c with
    | num q => exact .inr rfl
    | bool b2 => exact .inr rfl
    | null => exact .inr rfl
    | str s =>
      dsimp only
      by_cases hgt : s.startsWith ">" = true
      · rw [if_pos hgt, if_pos hgt]
        cases parsePyFloat (s.drop 1) with
        | none => exact .inl rfl
        | some thr => exact .inr rfl
      · rw [if_neg hgt, if_neg hgt]
        by_cases hlt : s.startsWith "<" = true
        · rw [if_pos hlt, if_pos hlt]
          cases parsePyFloat (s.drop 1) with
          | none => exact .inl rfl
          | some thr => exact .inr rfl
        · rw [if_neg hlt, if_neg hlt]
          exact .inr rfl

/-- Helper: a non-raising pair check returns the spec-side value. -/
theorem checkPair_ok_spec (data : Tx) (k : String) (c : Value) (b : Bool)
    (h : checkPair data k c = .ok b) : specPairSatisfied data k c = b := by
  rcases checkPair_spec_agree data k c with he | he
  · rw [he] at h
    cases h
  · rw [he] at h
    exact Except.ok.inj h

/-- Helper: a non-raising run over a condition list returns `true` exactly
when every pair is satisfied. -/
theorem checkPairs_ok_spec (data : Tx) (l : List (String × Value)) (b : Bool)
    (h : checkPairs data l = .ok b) :
    (b = true ↔ ∀ kc ∈ l, specPairSatisfied data kc.1 kc.2 = true) := by
  induction l generalizing b with
  | nil =>
    have h2 : true = b := Except.ok.inj h
    subst h2
    simp
  | cons kc rest ih =>
    obtain ⟨k, c⟩ := kc
    unfold checkPairs at h
    cases hp : checkPair data k c with
    | error e =>
      rw [hp] at h
      cases h
    | ok pb =>
      rw [hp] at h
      have hps := checkPair_ok_spec data k c pb hp
      cases pb with
      | true =>
        have h2 : checkPairs data rest = .ok b := h
        have hiff := ih b h2
        simp only [List.mem_cons]
        constructor
        · intro hb kc2 hkc2
          rcases hkc2 with rfl | hkc2
          · exact hps
          · exact (hiff.mp hb) kc2 hkc2
        · intro hall
          exact hiff.mpr (fun kc2 hkc2 => hall kc2 (Or.inr hkc2))
      | false =>
        have h2 : (Except.ok false : Except PyExc Bool) = .ok b := h
        have hb : b = false := (Except.ok.inj h2).symm
        subst hb
        simp only [List.mem_cons]
        constructor
        · intro hfalse
          exact absurd hfalse (by simp)
        · intro hall
          have hc := hall (k, c) (Or.inl rfl)
          rw [hps] at hc
          exact hc

/-- C4: whenever the condition matcher returns without raising, it returns
satisfied exactly when every key/constraint pair holds — an absent or
empty mapping being vacuously satisfied, a missing data key unsatisfied, a
`">"`/`"<"` string constraint a strict numeric comparison failing on
non-numeric data, and any other constraint an equality test. -/
theorem check_conditions_spec (data : Tx)
    (conds : Option (List (String × Value))) (b : Bool)
    (h : check_conditions data conds = .ok b) :
    (b = true ↔
      ∀ kc ∈ condPairs conds, specPairSatisfied data kc.1 kc.2 = true) := by
  cases conds with
  | none =>
    have h2 : true = b := Except.ok.inj h
    subst h2
    simp [condPairs]
  | some l => exact checkPairs_ok_spec data l b h

/-- C4 witness: constraint `">100"` against data value 150 — the matcher
returns satisfied, and every pair is spec-satisfied. -/
theorem check_conditions_spec_witness :
    check_conditions [("x", Value.num 150)]
        (some [("x", Value.str ">100")]) = .ok true ∧
    (∀ kc ∈ condPairs (some [("x", Value.str ">100")]),
      specPairSatisfied [("x", Value.num 150)] kc.1 kc.2 = true) :=
  ⟨by with_unfolding_all rfl,
   (check_conditions_spec [("x", Value.num 150)]
       (some [("x", Value.str ">100")]) true
       (by with_unfolding_all rfl)).mp rfl⟩

/-- Helper: assigning a key absent from a dict appends the binding. -/
theorem dictSet_fresh (store : RuleStore) (k : String) (v : TaxRule)
    (h : ∀ q ∈ store, q.1 ≠ k) : dictSet store k v = store ++ [(k, v)] := by
  unfold dictSet
  have hna : ¬(store.any (fun p => p.1 = k) = true) := by
    rw [List.any_eq_true]
    rintro ⟨q, hq, hqk⟩
    exact h q hq (of_decide_eq_true hqk)
  rw [if_neg hna]

/-- Helper: folding fresh, duplicate-free bindings into a dict appends
them in order. -/
theorem foldl_dictSet_fresh (l : List (String × TaxRule)) (acc : RuleStore)
    (hdisj : ∀ p ∈ l, ∀ q ∈ acc, p.1 ≠ q.1)
    (hnodup : (l.map Prod.fst).Nodup) :
    l.foldl (fun st p => dictSet st p.1 p.2) acc = acc ++ l := by
  induction l generalizing acc with
  | nil => simp
  | cons p rest ih =>
    rw [List.foldl_cons]
    have hfresh : ∀ q ∈ acc, q.1 ≠ p.1 := fun q hq he =>
      hdisj p (List.mem_cons_self p rest) q hq he.symm
    rw [dictSet_fresh acc p.1 p.2 hfresh]
    rw [List.map_cons, List.nodup_cons] at hnodup
    have hdisj2 : ∀ r ∈ rest, ∀ q ∈ acc ++ [(p.1, p.2)], r.1 ≠ q.1 := by
      intro r hr q hq
      rcases List.mem_append.mp hq with hq | hq
      · exact hdisj r (List.mem_cons_of_mem p hr) q hq
      · rcases List.mem_singleton.mp hq with rfl
        intro he
        exact hnodup.1 (he ▸ List.mem_map_of_mem Prod.fst hr)
    rw [ih (acc ++ [(p.1, p.2)]) hdisj2 hnodup.2]
    simp

/-- C7: exporting a store (with its dict-invariant of unique names) and
importing the result into an empty store reproduces the store exactly —
every field of every rule, including the optional dates and the
`is_active` flags, survives the JSON round-trip. -/
theorem export_import_roundtrip (store : RuleStore)
    (hnodup : (store.map Prod.fst).Nodup) :
    import_rules (export_rules store) [] = store := by
  unfold import_rules export_rules
  rw [List.foldl_map]
  exact (foldl_dictSet_fresh store [] (by simp) hnodup).trans
    (List.nil_append store)

/-- C7 witness: the default rule set round-trips unchanged. -/
theorem export_import_roundtrip_witness :
    (defaultRules.map Prod.fst).Nodup ∧
    import_rules (export_rules defaultRules) [] = defaultRules :=
  ⟨by decide, export_import_roundtrip defaultRules (by decide)⟩

/-- Helper: every record emitted for one line item comes from a rule whose
conditions hold, with amount `base * Decimal(str(rule.value))`. -/
theorem applyRulesTo_sound (data : Tx) (base : ℚ) (rules : List TaxRule)
    (recs : List AppliedRecord) (h : applyRulesTo data base rules = .ok recs) :
    ∀ rec ∈ recs, ∃ r, r ∈ rules ∧ ∃ v, r.value.toDec = some v ∧
      check_conditions data r.conditions = .ok true ∧
      rec = mkApplied r (base * v) := by
  induction rules generalizing recs with
  | nil =>
    have h2 : ([] : List AppliedRecord) = recs := Except.ok.inj h
    subst h2
    simp
  | cons r rs ih =>
    unfold applyRulesTo at h
    cases hc : check_conditions data r.conditions with
    | error e => rw [hc] at h; cases h
    | ok b =>
      rw [hc] at h
      cases b with
      | false =>
        have h2 : applyRulesTo data base rs = .ok recs := h
        intro rec hrec
        obtain ⟨r2, hr2, v, hv, hcc, heq⟩ := ih recs h2 rec hrec
        exact ⟨r2, List.mem_cons_of_mem r hr2, v, hv, hcc, heq⟩
      | true =>
        cases hv : r.value.toDec with
        | none => rw [hv] at h; cases h
        | some v =>
          rw [hv] at h
          cases hrest : applyRulesTo data base rs with
          | error e => rw [hrest] at h; cases h
          | ok rest =>
            rw [hrest] at h
            have h4 : mkApplied r (base * v) :: rest = recs := Except.ok.inj h
            subst h4
            intro rec hrec
            rcases List.mem_cons.mp hrec with heq | hrec
            · subst heq
              exact ⟨r, List.mem_cons_self r rs, v, hv, hc, rfl⟩
            · obtain ⟨r2, hr2, v2, hv2, hcc, heq⟩ := ih rest hrest rec hrec
              exact ⟨r2, List.mem_cons_of_mem r hr2, v2, hv2, hcc, heq⟩

/-- Helper: every rule whose conditions hold contributes its record. -/
theorem applyRulesTo_complete (data : Tx) (base : ℚ) (rules : List TaxRule)
    (recs : List AppliedRecord) (h : applyRulesTo data base rules = .ok recs) :
    ∀ r ∈ rules, check_conditions data r.conditions = .ok true →
      ∃ v, r.value.toDec = some v ∧ mkApplied r (base * v) ∈ recs := by
  induction rules generalizing recs with
  | nil =>
    intro r hr
    cases hr
  | cons r rs ih =>
    unfold applyRulesTo at h
    cases hc : check_conditions data r.conditions with
    | error e => rw [hc] at h; cases h
    | ok b =>
      rw [hc] at h
      cases b with
      | false =>
        have h2 : applyRulesTo data base rs = .ok recs := h
        intro r2 hr2 hcc2
        rcases List.mem_cons.mp hr2 with heq | hr2
        · subst heq
          rw [hcc2] at hc
          cases Except.ok.inj hc
        · exact ih recs h2 r2 hr2 hcc2
      | true =>
        cases hv : r.value.toDec with
        | none => rw [hv] at h; cases h
        | some v =>
          rw [hv] at h
          cases hrest : applyRulesTo data base rs with
          | error e => rw [hrest] at h; cases h
          | ok rest =>
            rw [hrest] at h
            have h4 : mkApplied r (base * v) :: rest = recs := Except.ok.inj h
            subst h4
            intro r2 hr2 hcc2
            rcases List.mem_cons.mp hr2 with heq | hr2
            · subst heq
              exact ⟨v, hv, List.mem_cons_self _ _⟩
            · obtain ⟨v2, hv2, hmem⟩ := ih rest hrest r2 hr2 hcc2
              exact ⟨v2, hv2, List.mem_cons_of_mem _ hmem⟩

/-- Helper: soundness lifted over the line-item loop. -/
theorem applyToItems_sound (rules : List TaxRule) (base : ℚ)
    (items : List Tx) (recs : List AppliedRecord)
    (h : applyToItems rules base items = .ok recs) :
    ∀ rec ∈ recs, ∃ r, r ∈ rules ∧ ∃ v, r.value.toDec = some v ∧
      rec = mkApplied r (base * v) := by
  induction items generalizing recs with
  | nil =>
    have h2 : ([] : List AppliedRecord) = recs := Except.ok.inj h
    subst h2
    simp
  | cons e es ih =>
    unfold applyToItems at h
    cases h1 : applyRulesTo e base rules with
    | error err => rw [h1] at h; cases h
    | ok recs1 =>
      rw [h1] at h
      cases h2 : applyToItems rules base es with
      | error err => rw [h2] at h; cases h
      | ok recs2 =>
        rw [h2] at h
        have h3 : recs1 ++ recs2 = recs := Except.ok.inj h
        subst h3
        intro rec hrec
        rcases List.mem_append.mp hrec with hrec | hrec
        · obtain ⟨r, hr, v, hv, _, heq⟩ :=
            applyRulesTo_sound e base rules recs1 h1 rec hrec
          exact ⟨r, hr, v, hv, heq⟩
        · exact ih recs2 h2 rec hrec

/-- Helper: completeness lifted over the line-item loop. -/
theorem applyToItems_complete (rules : List TaxRule) (base : ℚ)
    (items : List Tx) (recs : List AppliedRecord)
    (h : applyToItems rules base items = .ok recs) :
    ∀ e ∈ items, ∀ r ∈ rules, check_conditions e r.conditions = .ok true →
      ∃ v, r.value.toDec = some v ∧ mkApplied r (base * v) ∈ recs := by
  induction items generalizing recs with
  | nil =>
    intro e he
    cases he
  | cons e es ih =>
    unfold applyToItems at h
    cases h1 : applyRulesTo e base rules with
    | error err => rw [h1] at h; cases h
    | ok recs1 =>
      rw [h1] at h
      cases h2 : applyToItems rules base es with
      | error err => rw [h2] at h; cases h
      | ok recs2 =>
        rw [h2] at h
        have h3 : recs1 ++ recs2 = recs := Except.ok.inj h
        subst h3
        intro e2 he2 r hr hcc
        rcases List.mem_cons.mp he2 with heq | he2
        · subst heq
          obtain ⟨v, hv, hmem⟩ :=
            applyRulesTo_complete e2 base rules recs1 h1 r hr hcc
          exact ⟨v, hv, List.mem_append_left recs2 hmem⟩
        · obtain ⟨v, hv, hmem⟩ := ih recs2 h2 e2 he2 r hr hcc
          exact ⟨v, hv, List.mem_append_right recs1 hmem⟩

/-- C5: every record the deduction (resp. credit) calculator emits has
amount `base * rule.value` with the base being the expense amount passed to
`apply_deductions` (resp. the tax amount passed to `apply_credits`); every
active matching rule of the requested category emits its record; and the
concrete `Home_Office_Deduction` scenario (value 0.25, condition
`home_office_percentage > 0`, expense amount 400 with
`home_office_percentage` 50) yields a deduction amount of 100.00. -/
theorem apply_deductions_credits_base (store : RuleStore) (today : PyDate)
    (amount tax_amount : ℚ) (expenses : List Tx)
    (ds cs : List AppliedRecord)
    (hd : apply_deductions store today amount expenses = .ok ds)
    (hc : apply_credits store today tax_amount expenses = .ok cs) :
    (∀ rec ∈ ds, ∃ r, r ∈ get_active_rules store today none (some "deduction") ∧
       ∃ v, r.value.toDec = some v ∧ rec = mkApplied r (amount * v)) ∧
    (∀ e ∈ expenses, ∀ r ∈ get_active_rules store today none (some "deduction"),
       check_conditions e r.conditions = .ok true →
       ∃ v, r.value.toDec = some v ∧ mkApplied r (amount * v) ∈ ds) ∧
    (∀ rec ∈ cs, ∃ r, r ∈ get_active_rules store today none (some "credit") ∧
       ∃ v, r.value.toDec = some v ∧ rec = mkApplied r (tax_amount * v)) ∧
    (∀ e ∈ expenses, ∀ r ∈ get_active_rules store today none (some "credit"),
       check_conditions e r.conditions = .ok true →
       ∃ v, r.value.toDec = some v ∧ mkApplied r (tax_amount * v) ∈ cs) ∧
    apply_deductions homeOfficeScenarioStore someToday 400 [homeOfficeExpense] =
      .ok [mkApplied homeOfficeScenarioRule 100] ∧
    (mkApplied homeOfficeScenarioRule 100).amount = 100 :=
  ⟨applyToItems_sound _ amount expenses ds hd,
   applyToItems_complete _ amount expenses ds hd,
   applyToItems_sound _ tax_amount expenses cs hc,
   applyToItems_complete _ tax_amount expenses cs hc,
   by with_unfolding_all rfl, rfl⟩

/-- C5 witness: the concrete scenario run, with both hypotheses discharged
on it. -/
theorem apply_deductions_credits_base_witness :
    apply_deductions homeOfficeScenarioStore someToday 400 [homeOfficeExpense]
        = .ok [mkApplied homeOfficeScenarioRule 100] ∧
    (mkApplied homeOfficeScenarioRule 100).amount = 100 :=
  ⟨(apply_deductions_credits_base homeOfficeScenarioStore someToday 400 400
      [homeOfficeExpense] [mkApplied homeOfficeScenarioRule 100] []
      (by with_unfolding_all rfl) (by with_unfolding_all rfl)).2.2.2.2.1,
   (apply_deductions_credits_base homeOfficeScenarioStore someToday 400 400
      [homeOfficeExpense] [mkApplied homeOfficeScenarioRule 100] []
      (by with_unfolding_all rfl) (by with_unfolding_all rfl)).2.2.2.2.2⟩

/-- Helper: a completed summary loop adds, to each running total, the sum
of the corresponding per-transaction contributions — amounts and combined
taxes of revenue transactions into the collected totals, of expense
transactions into the paid totals. -/
theorem summaryFold_spec (store : RuleStore) (ts : List Tx)
    (acc a : SummaryAcc) (h : summaryFold store acc ts = .ok a) :
    a.revenue = acc.revenue + ((ts.filter isRevenueTx).map txAmt).sum ∧
    a.expenses = acc.expenses + ((ts.filter isExpenseTx).map txAmt).sum ∧
    a.gstC = acc.gstC + ((ts.filter isRevenueTx).map (txGstTax store)).sum ∧
    a.qstC = acc.qstC + ((ts.filter isRevenueTx).map (txQstTax store)).sum ∧
    a.gstP = acc.gstP + ((ts.filter isExpenseTx).map (txGstTax store)).sum ∧
    a.qstP = acc.qstP + ((ts.filter isExpenseTx).map (txQstTax store)).sum := by
  induction ts generalizing acc with
  | nil =>
    have h2 : acc = a := Except.ok.inj h
    subst h2
    simp
  | cons t ts ih =>
    unfold summaryFold at h
    cases hs : summaryStep store acc t with
    | error e => rw [hs] at h; cases h
    | ok acc2 =>
      rw [hs] at h
      obtain ⟨i1, i2, i3, i4, i5, i6⟩ := ih acc2 h
      unfold summaryStep at hs
      cases hta : ((lookupV t "amount").getD (.num 0)).toDec with
      | none => rw [hta] at hs; cases hs
      | some amt =>
        rw [hta] at hs
        dsimp only at hs
        have htxa : txAmt t = amt := by simp [txAmt, hta]
        by_cases hrev : pyEq ((lookupV t "type").getD (.str "revenue"))
            (.str "revenue") = true
        · rw [if_pos hrev] at hs
          cases hcomb : calculate_combined_taxes store amt false with
          | error e => rw [hcomb] at hs; cases hs
          | ok taxes =>
            rw [hcomb] at hs
            have h2 := Except.ok.inj hs
            subst h2
            have hexp : isExpenseTx t = false := by
              simp [isExpenseTx, isRevenueTx, hrev]
            have htxg : txGstTax store t = taxes.gst.tax_amount := by
              simp [txGstTax, txCombined, hta, hcomb, Except.toOption]
            have htxq : txQstTax store t = taxes.qst.tax_amount := by
              simp [txQstTax, txCombined, hta, hcomb, Except.toOption]
            refine ⟨?_, ?_, ?_, ?_, ?_, ?_⟩ <;>
              simp [i1, i2, i3, i4, i5, i6, List.filter_cons, isRevenueTx,
                    hrev, hexp, htxa, htxg, htxq] <;> ring
        · rw [if_neg hrev] at hs
          have hrev2 : isRevenueTx t = false := by
            simp [isRevenueTx] at hrev ⊢
            exact hrev
          by_cases hexp : pyEq ((lookupV t "type").getD (.str "revenue"))
              (.str "expense") = true
          · rw [if_pos hexp] at hs
            cases hcomb : calculate_combined_taxes store amt false with
            | error e => rw [hcomb] at hs; cases hs
            | ok taxes =>
              rw [hcomb] at hs
              have h2 := Except.ok.inj hs
              subst h2
              have hexp2 : isExpenseTx t = true := by
                simp [isExpenseTx, isRevenueTx] at hrev ⊢
                exact ⟨hrev, hexp⟩
              have htxg : txGstTax store t = taxes.gst.tax_amount := by
                simp [txGstTax, txCombined, hta, hcomb, Except.toOption]
              have htxq : txQstTax store t = taxes.qst.tax_amount := by
                simp [txQstTax, txCombined, hta, hcomb, Except.toOption]
              refine ⟨?_, ?_, ?_, ?_, ?_, ?_⟩ <;>
                simp [i1, i2, i3, i4, i5, i6, List.filter_cons, hrev2,
                      hexp2, htxa, htxg, htxq] <;> ring
          · rw [if_neg hexp] at hs
            have h2 := Except.ok.inj hs
            subst h2
            have hexp2 : isExpenseTx t = false := by
              simp [isExpenseTx, isRevenueTx] at hrev hexp ⊢
              intro
              exact hexp
            refine ⟨?_, ?_, ?_, ?_, ?_, ?_⟩ <;>
              simp [i1, i2, i3, i4, i5, i6, List.filter_cons, hrev2, hexp2]

/-- C8: a successful tax summary reports, per tax type, collected and paid
totals that sum the per-transaction combined taxes over revenue and
expense transactions respectively, remittance = collected − paid, total
remittance the sum of the per-type remittances; and each non-zero
remittance yields an obligation record with its type tag, the remittance
amount, the calendar collaborator's next deadline, a jurisdiction tag and
the fixed priority `"high"`. -/
theorem tax_summary_obligations (store : RuleStore) (ts : List Tx)
    (s : TaxSummary) (h : get_tax_summary store ts = .ok s)
    (itax : ℚ) (gstD qstD incD : Option PyDate) :
    s.gst_collected = ((ts.filter isRevenueTx).map (txGstTax store)).sum ∧
    s.gst_paid = ((ts.filter isExpenseTx).map (txGstTax store)).sum ∧
    s.qst_collected = ((ts.filter isRevenueTx).map (txQstTax store)).sum ∧
    s.qst_paid = ((ts.filter isExpenseTx).map (txQstTax store)).sum ∧
    s.gst_remittance = s.gst_collected - s.gst_paid ∧
    s.qst_remittance = s.qst_collected - s.qst_paid ∧
    s.total_tax_remittance = s.gst_remittance + s.qst_remittance ∧
    (s.gst_remittance ≠ 0 →
      (⟨"gst_remittance", "Remise TPS", s.gst_remittance, gstD, "CA",
        "high"⟩ : Obligation) ∈
        determine_obligations s.gst_remittance s.qst_remittance itax
          gstD qstD incD) ∧
    (s.qst_remittance ≠ 0 →
      (⟨"qst_remittance", "Remise TVQ", s.qst_remittance, qstD, "QC",
        "high"⟩ : Obligation) ∈
        determine_obligations s.gst_remittance s.qst_remittance itax
          gstD qstD incD) := by
  unfold get_tax_summary at h
  cases hf : summaryFold store ⟨0, 0, 0, 0, 0, 0⟩ ts with
  | error e => rw [hf] at h; cases h
  | ok a =>
    rw [hf] at h
    have h2 := Except.ok.inj h
    subst h2
    obtain ⟨i1, i2, i3, i4, i5, i6⟩ := summaryFold_spec store ts _ a hf
    refine ⟨by simpa using i3, by simpa using i5, by simpa using i4,
            by simpa using i6, rfl, rfl, rfl, ?_, ?_⟩
    · intro hne
      unfold determine_obligations
      rw [if_pos hne]
      exact List.mem_append_left _ (List.mem_append_left _
        (List.mem_singleton_self _))
    · intro hne
      unfold determine_obligations
      rw [if_pos hne]
      exact List.mem_append_left _ (List.mem_append_right _
        (List.mem_singleton_self _))

/-- C8 witness: a batch with one revenue of 1000 and one expense of 200
under the default rules — GST remittance 40, QST remittance 79.80, total
119.80 — and the non-zero GST remittance yields its obligation record. -/
theorem tax_summary_obligations_witness :
    get_tax_summary defaultRules demoTxs = .ok demoSummary ∧
    demoSummary.gst_remittance ≠ 0 ∧
    (⟨"gst_remittance", "Remise TPS", demoSummary.gst_remittance,
      some ⟨2025, 1, 31⟩, "CA", "high"⟩ : Obligation) ∈
      determine_obligations demoSummary.gst_remittance
        demoSummary.qst_remittance 0 (some ⟨2025, 1, 31⟩) none none :=
  ⟨by with_unfolding_all rfl, by norm_num [demoSummary],
   (tax_summary_obligations defaultRules demoTxs demoSummary
      (by with_unfolding_all rfl) 0 (some ⟨2025, 1, 31⟩) none
      none).2.2.2.2.2.2.2.1 (by norm_num [demoSummary])⟩

/-- Helper: unfolding a record lookup over a cons cell. -/
theorem lookupV_cons (k1 : String) (v : Value) (t : Tx) (k : String) :
    lookupV ((k1, v) :: t) k = if k1 = k then some v else lookupV t k := by
  by_cases h : k1 = k
  · simp [lookupV, List.find?_cons_of_pos, h]
  · simp [lookupV, List.find?_cons_of_neg, h]

/-- Helper: a transaction of any other type is a no-op for the summary
accumulator (given its amount converts). -/
theorem summaryStep_skip (store : RuleStore) (acc : SummaryAcc) (t : Tx)
    (a : ℚ) (hta : ((lookupV t "amount").getD (.num 0)).toDec = some a)
    (h1 : pyEq ((lookupV t "type").getD (.str "revenue"))
      (.str "revenue") = false)
    (h2 : pyEq ((lookupV t "type").getD (.str "revenue"))
      (.str "expense") = false) :
    summaryStep store acc t = .ok acc := by
  unfold summaryStep
  rw [hta]
  dsimp only
  rw [if_neg (by simp [h1]), if_neg (by simp [h2])]

/-- Helper: the summary step only reads the `amount` and `type` fields. -/
theorem summaryStep_congr (store : RuleStore) (acc : SummaryAcc) (t t2 : Tx)
    (hamt : (lookupV t "amount").getD (.num 0) =
      (lookupV t2 "amount").getD (.num 0))
    (hty : (lookupV t "type").getD (.str "revenue") =
      (lookupV t2 "type").getD (.str "revenue")) :
    summaryStep store acc t = summaryStep store acc t2 := by
  unfold summaryStep
  rw [hamt, hty]

/-- Helper: a head transaction whose step is the identity drops out of the
summary. -/
theorem get_tax_summary_cons_skip (store : RuleStore) (t : Tx) (ts : List Tx)
    (hstep : summaryStep store ⟨0, 0, 0, 0, 0, 0⟩ t =
      .ok ⟨0, 0, 0, 0, 0, 0⟩) :
    get_tax_summary store (t :: ts) = get_tax_summary store ts := by
  have hfold : summaryFold store ⟨0, 0, 0, 0, 0, 0⟩ (t :: ts) =
      summaryFold store ⟨0, 0, 0, 0, 0, 0⟩ ts := by
    show (match summaryStep store ⟨0, 0, 0, 0, 0, 0⟩ t with
      | Except.error e => (Except.error e : Except PyExc SummaryAcc)
      | Except.ok acc2 => summaryFold store acc2 ts) =
        summaryFold store ⟨0, 0, 0, 0, 0, 0⟩ ts
    rw [hstep]
  unfold get_tax_summary
  rw [hfold]

/-- Helper: replacing the head transaction by one the step reads
identically leaves the summary unchanged. -/
theorem get_tax_summary_cons_congr (store : RuleStore) (t t2 : Tx)
    (ts : List Tx)
    (hstep : summaryStep store ⟨0, 0, 0, 0, 0, 0⟩ t =
      summaryStep store ⟨0, 0, 0, 0, 0, 0⟩ t2) :
    get_tax_summary store (t :: ts) = get_tax_summary store (t2 :: ts) := by
  unfold get_tax_summary summaryFold
  rw [hstep]

/-- C10: in the tax summary, a transaction whose type is neither
`'revenue'` nor `'expense'` contributes nothing; a transaction with no
`type` field is read as a revenue transaction (dropping in an explicit
`'revenue'` type changes nothing); and a transaction with no `amount`
field is read as amount 0 (dropping in an explicit amount 0 changes
nothing). -/
theorem tax_summary_field_defaults (store : RuleStore) (t : Tx)
    (ts : List Tx) (a : ℚ)
    (hta : ((lookupV t "amount").getD (.num 0)).toDec = some a) :
    (pyEq ((lookupV t "type").getD (.str "revenue"))
        (.str "revenue") = false →
     pyEq ((lookupV t "type").getD (.str "revenue"))
        (.str "expense") = false →
     get_tax_summary store (t :: ts) = get_tax_summary store ts) ∧
    (lookupV t "type" = none →
      isRevenueTx t = true ∧
      get_tax_summary store (t :: ts) =
        get_tax_summary store ((("type", Value.str "revenue") :: t) :: ts)) ∧
    (lookupV t "amount" = none →
      txAmt t = 0 ∧
      get_tax_summary store (t :: ts) =
        get_tax_summary store ((("amount", Value.num 0) :: t) :: ts)) := by
  refine ⟨?_, ?_, ?_⟩
  · intro h1 h2
    exact get_tax_summary_cons_skip store t ts
      (summaryStep_skip store _ t a hta h1 h2)
  · intro hty
    constructor
    · simp [isRevenueTx, hty, pyEq, Value.numView]
    · refine get_tax_summary_cons_congr store t _ ts
        (summaryStep_congr store _ t _ ?_ ?_)
      · rw [lookupV_cons, if_neg (by decide)]
      · rw [lookupV_cons, if_pos rfl, hty]
        rfl
  · intro hamt
    constructor
    · simp [txAmt, hamt, Value.toDec]
    · refine get_tax_summary_cons_congr store t _ ts
        (summaryStep_congr store _ t _ ?_ ?_)
      · rw [lookupV_cons, if_pos rfl, hamt]
        rfl
      · rw [lookupV_cons, if_neg (by decide)]

/-- C10 witness: a `'transfer'` transaction drops out of a concrete
summary; a transaction with no `type` counts as revenue; a transaction
with no `amount` counts as 0. -/
theorem tax_summary_field_defaults_witness :
    get_tax_summary defaultRules [transferTx, noTypeTx] =
      get_tax_summary defaultRules [noTypeTx] ∧
    isRevenueTx noTypeTx = true ∧
    txAmt noAmountTx = 0 :=
  ⟨(tax_summary_field_defaults defaultRules transferTx [noTypeTx] 999
      (by with_unfolding_all rfl)).1 (by with_unfolding_all rfl)
      (by with_unfolding_all rfl),
   ((tax_summary_field_defaults defaultRules noTypeTx [] 1000
      (by with_unfolding_all rfl)).2.1 (by with_unfolding_all rfl)).1,
   ((tax_summary_field_defaults defaultRules noAmountTx [] 0
      (by with_unfolding_all rfl)).2.2 (by with_unfolding_all rfl)).1⟩

end TaxRules
